import Mathlib

/-!
Verification of the orchestration state machine and failure-recovery engine of
the AI web-testing pipeline (`ai_web_tester`).  The Python sources under
`src/ai_web_tester` are shallowly embedded below: every stage is a pure Lean
function over an explicit `AgentState` record, Python `None`/`""` truthiness is
modelled explicitly on `Option String`, and the two genuinely external effects
(the `ast.parse` syntax check and the sandboxed script execution) are supplied
as oracle parameters.
-/

set_option maxHeartbeats 1000000
set_option maxRecDepth 10000

namespace AiWebTester

/-! ## Generic string helpers (Python `in`, `str.lower`, truthiness) -/

/-- Python truthiness of a string: `None` and `""` are falsy.  Here for a plain
string value (non-`None`). -/
def pyTruthy (s : String) : Bool := s ≠ ""

/-- Python truthiness of an optional string (`None` or a string). -/
def pyTruthyOpt : Option String → Bool
  | none => false
  | some s => s ≠ ""

/-- `isPrefixL a b` is true when the char list `a` is a prefix of `b`. -/
def isPrefixL : List Char → List Char → Bool
  | [], _ => true
  | _ :: _, [] => false
  | a :: as, b :: bs => a = b && isPrefixL as bs

/-- `stripPrefixL a b` removes prefix `a` from `b` when present. -/
def stripPrefixL : List Char → List Char → Option (List Char)
  | [], b => some b
  | _ :: _, [] => none
  | a :: as, b :: bs => if a = b then stripPrefixL as bs else none

/-- Substring containment on char lists (Python `needle in hay`). -/
def containsL (needle : List Char) : List Char → Bool
  | [] => isPrefixL needle []
  | c :: cs => isPrefixL needle (c :: cs) || containsL needle cs

/-- Python `needle in hay` on strings. -/
def containsS (needle hay : String) : Bool := containsL needle.toList hay.toList

/-- Left-to-right regex-like scan: try the matcher at every position, leftmost
success wins (the semantics of `re.search` for the patterns used here). -/
def scanFor (tryAt : List Char → Option (List Char)) : List Char → Option (List Char)
  | [] => tryAt []
  | c :: cs =>
    match tryAt (c :: cs) with
    | some r => some r
    | none => scanFor tryAt cs

/-- Rightmost-first scan, used for a pattern preceded by a greedy `.*`:
later start positions are tried before earlier ones. -/
def scanLast (tryAt : List Char → Option (List Char)) : List Char → Option (List Char)
  | [] => tryAt []
  | c :: cs =>
    match scanLast tryAt cs with
    | some r => some r
    | none => tryAt (c :: cs)

/-- Rightmost-first scan that may not advance past a newline (a greedy `.*`
does not match `\n`); at a newline only the current position is tried. -/
def scanLastNoNL (tryAt : List Char → Option (List Char)) : List Char → Option (List Char)
  | [] => tryAt []
  | c :: cs =>
    if c = '\n' then tryAt (c :: cs)
    else
      match scanLastNoNL tryAt cs with
      | some r => some r
      | none => tryAt (c :: cs)

/-- Python `\s` whitespace class. -/
def isPySpace (c : Char) : Bool :=
  c = ' ' || c = '\t' || c = '\n' || c = '\r' || c = '\x0b' || c = '\x0c'

/-- Python `str.lower()` (per-character lowering; all strings involved are
ASCII).  Implemented structurally so that it evaluates inside the kernel. -/
def toLowerS (s : String) : String := String.mk (s.toList.map Char.toLower)

/-- Python `str.replace(c, replacement)` for a one-character pattern (the only
form the source uses), structurally on the character list. -/
def replaceCharL (c : Char) (replacement : List Char) : List Char → List Char
  | [] => []
  | x :: xs =>
    if x = c then replacement ++ replaceCharL c replacement xs
    else x :: replaceCharL c replacement xs

/-- Python `str.replace` on strings, one-character pattern. -/
def pyReplace (s : String) (c : Char) (replacement : String) : String :=
  String.mk (replaceCharL c replacement.toList s.toList)

/-- Python `str.startswith`, structurally. -/
def startsWithS (s pre : String) : Bool := isPrefixL pre.toList s.toList

/-! ## Data model (`src/ai_web_tester/agent/state.py`) -/

/-- `TestAction`: one browser action parsed from natural language. -/
structure TestAction where
  action : String
  target : Option String
  selector : Option String
  value : Option String
deriving DecidableEq, Repr

/-- `ValidationResult`: result of code validation. -/
structure ValidationResult where
  is_valid : Bool
  error_message : Option String
  error_line : Option Nat
deriving DecidableEq, Repr

/-- `StepResult`: result of a single executed test step. -/
structure StepResult where
  step_number : Nat
  action : String
  selector : Option String
  status : String
  error : Option String
  time_ms : Nat
  screenshot : Option String
deriving DecidableEq, Repr

/-- `ExecutionResult`: result of test execution. -/
structure ExecutionResult where
  success : Bool
  steps : List StepResult
  total_time_ms : Nat
  console_logs : List String
  error_message : Option String
deriving DecidableEq, Repr

/-- `TestReport`: final test report structure. -/
structure TestReport where
  status : String
  total_steps : Nat
  passed : Nat
  failed : Nat
  execution_time_ms : Nat
  steps : List StepResult
  failure_reason : Option String
  screenshots : List String
  human_readable : String
deriving DecidableEq, Repr

/-- `AgentState`: the shared state record threaded through all pipeline nodes. -/
structure AgentState where
  instruction : String
  base_url : String
  parsed_actions : List TestAction
  generated_code : String
  test_file_path : String
  validation_result : ValidationResult
  execution_result : ExecutionResult
  report : TestReport
  errors : List String
  retry_count : Nat
  max_retries : Nat
deriving DecidableEq, Repr

/-- `create_initial_state`: initial state for a new run (`state.py`). -/
def create_initial_state (instruction base_url : String) : AgentState :=
  { instruction := instruction
    base_url := base_url
    parsed_actions := []
    generated_code := ""
    test_file_path := ""
    validation_result := { is_valid := false, error_message := none, error_line := none }
    execution_result :=
      { success := false, steps := [], total_time_ms := 0, console_logs := [], error_message := none }
    report :=
      { status := "PENDING", total_steps := 0, passed := 0, failed := 0, execution_time_ms := 0,
        steps := [], failure_reason := none, screenshots := [], human_readable := "" }
    errors := []
    retry_count := 0
    max_retries := 3 }

/-! ## Selector Failure Analyzer and Recovery Engine
(`src/ai_web_tester/agent/nodes/error_handler.py`) -/

/-- `SELECTOR_ALTERNATIVES`: the keyword → alternatives table, in source
(insertion) order. -/
def SELECTOR_ALTERNATIVES : List (String × List String) :=
  [("button",
    ["button[type=\x27submit\x27]",
     "button",
     "input[type=\x27submit\x27]",
     "[role=\x27button\x27]"]),
   ("username",
    ["input[name=\x27username\x27]",
     "input[id=\x27username\x27]",
     "input[type=\x27text\x27]",
     "#username",
     "[placeholder*=\x27user\x27]"]),
   ("password",
    ["input[name=\x27password\x27]",
     "input[id=\x27password\x27]",
     "input[type=\x27password\x27]",
     "#password",
     "[placeholder*=\x27pass\x27]"]),
   ("email",
    ["input[name=\x27email\x27]",
     "input[id=\x27email\x27]",
     "input[type=\x27email\x27]",
     "#email",
     "[placeholder*=\x27email\x27]"]),
   ("search",
    ["input[name=\x27search\x27]",
     "input[name=\x27query\x27]",
     "input[id=\x27search\x27]",
     "input[type=\x27search\x27]",
     "#search",
     "[placeholder*=\x27search\x27]"]),
   ("login",
    ["button:has-text(\x27Login\x27)",
     "button:has-text(\x27Sign In\x27)",
     "button:has-text(\x27Log In\x27)",
     "input[type=\x27submit\x27]",
     "button[type=\x27submit\x27]"])]

/-- Matcher for `Selector "([^"]+)" not found` at one start position. -/
def tryPat1 (s : List Char) : Option (List Char) :=
  match stripPrefixL "Selector \x22".toList s with
  | none => none
  | some rest =>
    let cap := rest.takeWhile (fun c => c ≠ '\x22')
    if cap ≠ [] && isPrefixL "\x22 not found".toList (rest.drop cap.length) then some cap
    else none

/-- Matcher for `selector="([^"]+)"` at one start position (the tail of the
second pattern, after the greedy `.*`). -/
def trySelectorEq (s : List Char) : Option (List Char) :=
  match stripPrefixL "selector=\x22".toList s with
  | none => none
  | some rest =>
    let cap := rest.takeWhile (fun c => c ≠ '\x22')
    if cap ≠ [] && isPrefixL "\x22".toList (rest.drop cap.length) then some cap
    else none

/-- Matcher for `locator\.click: Timeout.*selector="([^"]+)"` at one start
position; the greedy `.*` (which cannot cross a newline) is realised by a
rightmost-first scan for the tail pattern. -/
def tryPat2 (s : List Char) : Option (List Char) :=
  match stripPrefixL "locator.click: Timeout".toList s with
  | none => none
  | some rest => scanLastNoNL trySelectorEq rest

/-- Matcher for `waiting for selector "([^"]+)"` at one start position. -/
def tryPat3 (s : List Char) : Option (List Char) :=
  match stripPrefixL "waiting for selector \x22".toList s with
  | none => none
  | some rest =>
    let cap := rest.takeWhile (fun c => c ≠ '\x22')
    if cap ≠ [] && isPrefixL "\x22".toList (rest.drop cap.length) then some cap
    else none

/-- Matcher for `Error: ([^\s]+) not found` at one start position.  The greedy
non-whitespace run cannot be shortened by backtracking (the next pattern char
is a space), so the capture is the maximal run. -/
def tryPat4 (s : List Char) : Option (List Char) :=
  match stripPrefixL "Error: ".toList s with
  | none => none
  | some rest =>
    let cap := rest.takeWhile (fun c => !isPySpace c)
    if cap ≠ [] && isPrefixL " not found".toList (rest.drop cap.length) then some cap
    else none

/-- `extract_failed_selector`: first capture of the first matching pattern,
patterns tried in source order. -/
def extract_failed_selector (error_message : String) : Option String :=
  let cs := error_message.toList
  match scanFor tryPat1 cs with
  | some cap => some (String.mk cap)
  | none =>
    match scanFor tryPat2 cs with
    | some cap => some (String.mk cap)
    | none =>
      match scanFor tryPat3 cs with
      | some cap => some (String.mk cap)
      | none =>
        match scanFor tryPat4 cs with
        | some cap => some (String.mk cap)
        | none => none

/-- Matcher for `name='([^']+)'` at one start position. -/
def tryNameField (s : List Char) : Option (List Char) :=
  match stripPrefixL "name=\x27".toList s with
  | none => none
  | some rest =>
    let cap := rest.takeWhile (fun c => c ≠ '\x27')
    if cap ≠ [] && isPrefixL "\x27".toList (rest.drop cap.length) then some cap
    else none

/-- `re.search(r"name='([^']+)'", selector)` capture. -/
def extractNameField (selector : String) : Option String :=
  (scanFor tryNameField selector.toList).map String.mk

/-- Order-preserving deduplication with a seen-set accumulator, as in the
`seen` / `unique_alternatives` loop of `suggest_alternative_selectors`. -/
def dedupKeepFirst (seen : List String) : List String → List String
  | [] => []
  | x :: xs =>
    if seen.contains x then dedupKeepFirst seen xs
    else x :: dedupKeepFirst (x :: seen) xs

/-- `suggest_alternative_selectors`: keyword-table lookup, removal of the
original selector, generic / field-name alternatives, dedup, top 5. -/
def suggest_alternative_selectors (failed_selector : String) : List String :=
  let selector_lower := toLowerS failed_selector
  let alternatives :=
    SELECTOR_ALTERNATIVES.foldl
      (fun acc kv => if containsS kv.1 selector_lower then acc ++ kv.2 else acc) []
  let alternatives := alternatives.filter (fun s => s ≠ failed_selector)
  let alternatives :=
    if containsS "button" selector_lower || containsS "submit" selector_lower then
      alternatives ++ ["button:first-of-type", "form button", "[type=\x27submit\x27]"]
    else if containsS "input" selector_lower then
      match extractNameField failed_selector with
      | some field_name =>
        alternatives ++
          ["#" ++ field_name,
           "input[id=\x27" ++ field_name ++ "\x27]",
           "[placeholder*=\x27" ++ field_name ++ "\x27]"]
      | none => alternatives
    else alternatives
  (dedupKeepFirst [] alternatives).take 5

/-- `modify_actions_with_alternatives`: substitute the first alternative for
every action whose selector equals the failed one; returns the `modified`
flag and the updated action list (the Python function mutates in place). -/
def modify_actions_with_alternatives (actions : List TestAction)
    (failed_selector : String) (alternatives : List String) :
    Bool × List TestAction :=
  match alternatives with
  | [] => (false, actions)
  | new_selector :: _ =>
    (actions.any (fun a => a.selector = some failed_selector),
     actions.map (fun a =>
       if a.selector = some failed_selector then { a with selector := some new_selector }
       else a))

/-- First step-level failure message: the first step with `status == "fail"`
and a truthy `error` (the `for step in ...: break` loop in `handle_error`). -/
def firstFailingStepError (steps : List StepResult) : Option String :=
  match steps.find? (fun s => s.status == "fail" && pyTruthyOpt s.error) with
  | some s => s.error
  | none => none

/-- The error-classification part of `handle_error` (lines 196–216):
validation failure first, then execution failure with a step-level message
preferred; the result is used only when truthy (`if error_message:`). -/
def analyzeErrorMessage (st : AgentState) : Option String :=
  let raw : Option String :=
    if !st.validation_result.is_valid then st.validation_result.error_message
    else if !st.execution_result.success then
      match firstFailingStepError st.execution_result.steps with
      | some e => some e
      | none => st.execution_result.error_message
    else none
  match raw with
  | some m => if m ≠ "" then some m else none
  | none => none

/-- `handle_error`: the Recovery Engine node.  When the budget is exhausted it
only appends a diagnostic; otherwise it increments `retry_count`, classifies
the failure, and attempts a selector repair that clears `generated_code` and
invalidates the validation result when it modified any action. -/
def handle_error (st : AgentState) : AgentState :=
  if st.retry_count ≥ st.max_retries then
    { st with errors :=
        st.errors ++ ["Maximum retries (" ++ toString st.max_retries ++ ") exceeded"] }
  else
    let st1 := { st with retry_count := st.retry_count + 1 }
    match analyzeErrorMessage st with
    | none => st1
    | some error_message =>
      match extract_failed_selector error_message with
      | none => st1
      | some failed_selector =>
        match suggest_alternative_selectors failed_selector with
        | [] => st1
        | alt :: rest =>
          let r := modify_actions_with_alternatives st.parsed_actions failed_selector
                     (alt :: rest)
          if r.1 then
            { st1 with
              parsed_actions := r.2
              generated_code := ""
              validation_result := { st.validation_result with is_valid := false } }
          else { st1 with parsed_actions := r.2 }

/-- `should_retry`: the conditional-edge predicate.  The Python check
`state["execution_result"] and not ...["success"]` tests truthiness of a
`TypedDict` that is always a non-empty dict, hence always truthy. -/
def should_retry (st : AgentState) : Bool :=
  if st.retry_count ≥ st.max_retries then false
  else if !st.validation_result.is_valid then true
  else if !st.execution_result.success then true
  else false

/-! ## Validation Engine (`src/ai_web_tester/agent/nodes/validator.py`)

`check_syntax` calls the Python parser (`ast.parse`), an external facility;
it is passed in as an oracle of type `String → Bool × String × Nat`
returning `(is_valid, error_message, error_line)`. -/

/-- `check_required_imports`: the loop over `["playwright", "sync_playwright"]`
reporting the first missing marker. -/
def check_required_imports (code : String) : Bool × String :=
  if !containsS "playwright" code then (false, "Missing required import: playwright")
  else if !containsS "sync_playwright" code then
    (false, "Missing required import: sync_playwright")
  else (true, "")

/-- `check_function_structure`: entry function, browser launch, browser close. -/
def check_function_structure (code : String) : Bool × String :=
  if !containsS "def run_test" code then (false, "Missing run_test function")
  else if !containsS "launch(" code then (false, "Missing browser launch")
  else if !containsS "close()" code then (false, "Missing browser close")
  else (true, "")

/-- One attempt of `re.findall(r'page\.(click|fill|wait_for_selector)\("([^"]*)"\)', ...)`
at a single position; returns the selector capture and the rest after the match. -/
def tryPageCall (s : List Char) : Option (List Char × List Char) :=
  let tryLit := fun (lit : List Char) =>
    match stripPrefixL lit s with
    | none => none
    | some rest =>
      let cap := rest.takeWhile (fun c => c ≠ '\x22')
      match stripPrefixL "\x22)".toList (rest.drop cap.length) with
      | none => none
      | some rest2 => some (cap, rest2)
  match tryLit "page.click(\x22".toList with
  | some r => some r
  | none =>
    match tryLit "page.fill(\x22".toList with
    | some r => some r
    | none => tryLit "page.wait_for_selector(\x22".toList

/-- Non-overlapping leftmost scan collecting all selector captures; the fuel
argument (instantiated with the input length) only serves termination, each
match consumes at least one character. -/
def findSelectorArgsAux : Nat → List Char → List String
  | 0, _ => []
  | _, [] => []
  | fuel + 1, c :: cs =>
    match tryPageCall (c :: cs) with
    | some (cap, rest) => String.mk cap :: findSelectorArgsAux fuel rest
    | none => findSelectorArgsAux fuel cs

/-- All selector arguments of `page.click` / `page.fill` / `page.wait_for_selector`
calls in the code. -/
def findSelectorArgs (code : String) : List String :=
  findSelectorArgsAux code.length code.toList

/-- `check_selectors`: the first condition is
`'page.click("")' in code or 'page.fill("",'` — the second operand of `or` is
a constant non-empty string (not a containment test), hence truthy, so this
branch is always taken; the quote scan below it is unreachable. -/
def check_selectors (code : String) : Bool × String :=
  if containsS "page.click(\x22\x22)" code || pyTruthy "page.fill(\x22\x22," then
    (false, "Empty selector detected")
  else
    match (findSelectorArgs code).find?
        (fun selector => (selector.toList.count '\x22') > 0) with
    | some selector => (false, "Unescaped quotes in selector: " ++ selector)
    | none => (true, "")

/-- `validate_code`: the four checks in order, short-circuiting on the first
failure; `syntaxCk` is the `ast.parse` oracle. -/
def validate_code (syntaxCk : String → Bool × String × Nat) (st : AgentState) :
    AgentState :=
  let code := st.generated_code
  if code = "" then
    { st with validation_result :=
        { is_valid := false, error_message := some "No code to validate",
          error_line := some 0 } }
  else
    let sres := syntaxCk code
    if !sres.1 then
      { st with validation_result :=
          { is_valid := false,
            error_message := some ("Syntax check failed: " ++ sres.2.1),
            error_line := some sres.2.2 } }
    else
      let ires := check_required_imports code
      if !ires.1 then
        { st with validation_result :=
            { is_valid := false,
              error_message := some ("Imports check failed: " ++ ires.2),
              error_line := some 0 } }
      else
        let fres := check_function_structure code
        if !fres.1 then
          { st with validation_result :=
              { is_valid := false,
                error_message := some ("Structure check failed: " ++ fres.2),
                error_line := some 0 } }
        else
          let cres := check_selectors code
          if !cres.1 then
            { st with validation_result :=
                { is_valid := false,
                  error_message := some ("Selectors check failed: " ++ cres.2),
                  error_line := some 0 } }
          else
            { st with validation_result :=
                { is_valid := true, error_message := none, error_line := none } }

/-- `is_valid`: conditional-edge predicate after validation. -/
def is_valid (st : AgentState) : Bool := st.validation_result.is_valid

/-! ## Code generator (`src/ai_web_tester/agent/nodes/code_generator.py`)

The Python node interpolates `datetime.now().isoformat()` into the template;
that clock value is passed here as the `timestamp` argument. -/

/-- Python local after `x = action.get(k, "")` for an always-present key:
`None` or the stored string. Display in an f-string: `None` prints as
`"None"`. -/
def pyDisplay : Option String → String
  | none => "None"
  | some s => s

/-- The `if x: x = x.replace('"', '\\"')` quote-escaping step applied to a
possibly-`None` local. -/
def escIfTruthy : Option String → Option String
  | none => none
  | some s => if s ≠ "" then some (pyReplace s '\x22' "\\\x22") else some s

/-- `generate_step_code`: Playwright code for one action, with step tracking. -/
def generate_step_code (action : TestAction) (step_number : Nat) (base_url : String) :
    String :=
  let action_type := action.action
  let selector := escIfTruthy action.selector
  let value := escIfTruthy action.value
  let target := action.target
  let selD := pyDisplay selector
  let valD := pyDisplay value
  let head :=
    ["            # Step " ++ toString step_number ++ ": " ++ action_type,
     "            step_start = time.time()",
     "            step_result = \x7b\x22step_number\x22: " ++ toString step_number ++
       ", \x22action\x22: \x22" ++ action_type ++ "\x22, \x22selector\x22: \x22" ++ selD ++
       "\x22, \x22status\x22: \x22pass\x22, \x22error\x22: None, \x22time_ms\x22: 0, \x22screenshot\x22: None\x7d",
     "            try:"]
  let body :=
    if action_type = "goto" then
      let url_path :=
        (if pyTruthyOpt target then target
         else if pyTruthyOpt value then value else some "/").getD "/"
      let url_path := if startsWithS url_path "http" then url_path else base_url ++ url_path
      ["                page.goto(\x22" ++ url_path ++ "\x22)",
       "                page.wait_for_load_state(\x22networkidle\x22)"]
    else if action_type = "click" then
      ["                page.click(\x22" ++ selD ++ "\x22)"]
    else if action_type = "fill" then
      ["                page.fill(\x22" ++ selD ++ "\x22, \x22" ++ valD ++ "\x22)"]
    else if action_type = "wait" then
      ["                page.wait_for_selector(\x22" ++ selD ++ "\x22, timeout=10000)"]
    else if action_type = "assert_url" then
      ["                assert \x22" ++ valD ++
         "\x22 in page.url, f\x22URL assertion failed: expected \\\x22" ++ valD ++
         "\\\x22 in \x7bpage.url\x7d\x22"]
    else if action_type = "assert_visible" then
      ["                expect(page.locator(\x22" ++ selD ++ "\x22)).to_be_visible()"]
    else if action_type = "assert_text" then
      if pyTruthyOpt selector then
        ["                expect(page.locator(\x22" ++ selD ++
           "\x22)).to_contain_text(\x22" ++ valD ++ "\x22)"]
      else
        ["                expect(page.locator(\x22body\x22)).to_contain_text(\x22" ++
           valD ++ "\x22)"]
    else
      ["                pass  # Unknown action: " ++ action_type]
  let tail :=
    ["            except Exception as step_error:",
     "                step_result[\x22status\x22] = \x22fail\x22",
     "                step_result[\x22error\x22] = str(step_error)",
     "                raise",
     "            finally:",
     "                step_result[\x22time_ms\x22] = int((time.time() - step_start) * 1000)",
     "                results[\x22steps\x22].append(step_result)",
     ""]
  String.intercalate "\n" (head ++ body ++ tail)

/-- The template text from its start up to the `{timestamp}` hole. -/
def scriptPart1 : String :=
  "\x22\x22\x22\nAuto-generated Playwright Test Script\nGenerated: "

/-- The template text between the `{timestamp}` and `{instruction}` holes. -/
def scriptPart2 : String := "\nInstruction: "

/-- The template text between the `{instruction}` and `{record_video}` holes. -/
def scriptPart3 : String :=
  String.intercalate "\n"
    ["",
     "\x22\x22\x22",
     "",
     "import time",
     "from playwright.sync_api import sync_playwright, expect",
     "",
     "",
     "def run_test():",
     "    \x22\x22\x22Execute the generated test case.\x22\x22\x22",
     "    results = \x7b",
     "        \x22steps\x22: [],",
     "        \x22console_logs\x22: [],",
     "        \x22success\x22: True,",
     "        \x22error_message\x22: None",
     "    \x7d",
     "    ",
     "    start_time = time.time()",
     "    ",
     "    with sync_playwright() as p:",
     "        # Launch browser in headless mode",
     "        browser = p.chromium.launch(headless=True)",
     "        context = browser.new_context(",
     "            viewport=\x7b\x22width\x22: 1280, \x22height\x22: 720\x7d,",
     "            record_video_dir=\x22videos/\x22 if "]

/-- The template text between the `{record_video}` and `{test_steps}` holes. -/
def scriptPart4 : String :=
  String.intercalate "\n"
    [" else None",
     "        )",
     "        page = context.new_page()",
     "        ",
     "        # Capture console logs",
     "        page.on(\x22console\x22, lambda msg: results[\x22console_logs\x22].append(f\x22[\x7bmsg.type\x7d] \x7bmsg.text\x7d\x22))",
     "        ",
     "        try:",
     ""]

/-- The template text after the `{test_steps}` hole. -/
def scriptPart5 : String :=
  String.intercalate "\n"
    ["",
     "        except Exception as e:",
     "            results[\x22success\x22] = False",
     "            results[\x22error_message\x22] = str(e)",
     "            # Take screenshot on failure",
     "            try:",
     "                page.screenshot(path=\x22screenshots/error_\x7bint(time.time())\x7d.png\x22)",
     "                results[\x22steps\x22][-1][\x22screenshot\x22] = f\x22screenshots/error_\x7bint(time.time())\x7d.png\x22",
     "            except:",
     "                pass",
     "        finally:",
     "            context.close()",
     "            browser.close()",
     "    ",
     "    results[\x22total_time_ms\x22] = int((time.time() - start_time) * 1000)",
     "    return results",
     "",
     "",
     "if __name__ == \x22__main__\x22:",
     "    import json",
     "    result = run_test()",
     "    print(json.dumps(result, indent=2))",
     ""]

/-- `PLAYWRIGHT_TEMPLATE.format(timestamp=…, instruction=…, test_steps=…,
record_video=…)`: the template with its four holes filled. -/
def playwright_script (timestamp instruction test_steps record_video : String) :
    String :=
  scriptPart1 ++ timestamp ++ scriptPart2 ++ instruction ++ scriptPart3 ++
    record_video ++ scriptPart4 ++ test_steps ++ scriptPart5

/-- Step codes for actions numbered from `i` (`enumerate(parsed_actions, 1)`). -/
def stepCodes (base_url : String) : Nat → List TestAction → List String
  | _, [] => []
  | i, a :: rest => generate_step_code a i base_url :: stepCodes base_url (i + 1) rest

/-- The pure script emitter: the body of `generate_code` for a non-empty action
list (steps joined with `"\n"`, instruction quote-escaped, video recording
fixed to `"False"`), with the `datetime.now().isoformat()` value as the
`timestamp` argument. -/
def emit (parsed_actions : List TestAction) (base_url instruction timestamp : String) :
    String :=
  let all_steps := String.intercalate "\n" (stepCodes base_url 1 parsed_actions)
  playwright_script timestamp (pyReplace instruction '\x22' "\\\x22") all_steps "False"

/-- `generate_code`: the LangGraph node.  With no parsed actions it records an
error and leaves the code empty; otherwise it emits the script (the
`try/except` around pure string formatting cannot fire). -/
def generate_code (now : String) (st : AgentState) : AgentState :=
  if st.parsed_actions = [] then
    { st with errors := st.errors ++ ["No parsed actions to generate code from"],
              generated_code := "" }
  else
    { st with generated_code := emit st.parsed_actions st.base_url st.instruction now }

/-! ## Executor (`src/ai_web_tester/agent/nodes/executor.py`)

Actually running the generated script (`exec` + Playwright) is an external
effect; its behaviour is an oracle value of type `ExecBehavior`. -/

/-- The dict returned by a `run_test()` call, before `execute_test` reads it
with `.get` and defaults; each field may be absent (or `None` for
`error_message`). -/
structure RawRunResult where
  success : Option Bool
  steps : Option (List StepResult)
  total_time_ms : Option Nat
  console_logs : Option (List String)
  error_message : Option String
deriving DecidableEq, Repr

/-- How the `exec`/`run_test()` call inside `execute_code_safely` behaves:
it raises an `Exception` (name, message, traceback), the compiled namespace
lacks `run_test`, or `run_test()` returns a result dict. -/
inductive ExecBehavior
  | raises (ename estr etb : String)
  | noRunTest
  | returns (r : RawRunResult)
deriving DecidableEq, Repr

/-- `execute_code_safely`: exec the script and call `run_test`; any raised
`Exception` is caught and turned into a failure dict with
`f"{type(e).__name__}: {str(e)}\n{traceback.format_exc()}"` as the message. -/
def execute_code_safely (behavior : ExecBehavior) : RawRunResult :=
  match behavior with
  | .returns r => r
  | .noRunTest =>
    { success := some false
      error_message := some "run_test function not found in generated code"
      steps := some [], total_time_ms := some 0, console_logs := some [] }
  | .raises ename estr etb =>
    { success := some false
      error_message := some (ename ++ ": " ++ estr ++ "\n" ++ etb)
      steps := some [], total_time_ms := some 0, console_logs := some [] }

/-- `execute_test`: the LangGraph node.  Skips execution when there is no code
or validation failed; otherwise saves the file (path supplied as an oracle),
runs `execute_code_safely` and rebuilds an `ExecutionResult` with `.get`
defaults (`elapsed` is the wall-clock default for `total_time_ms`). -/
def execute_test (behavior : ExecBehavior) (elapsed : Nat) (file_path : String)
    (st : AgentState) : AgentState :=
  let code := st.generated_code
  if code = "" then
    { st with execution_result :=
        { success := false, steps := [], total_time_ms := 0, console_logs := [],
          error_message := some "No code to execute" } }
  else if !st.validation_result.is_valid then
    { st with execution_result :=
        { success := false, steps := [], total_time_ms := 0, console_logs := [],
          error_message := some ("Code validation failed: " ++
            pyDisplay st.validation_result.error_message) } }
  else
    let result := execute_code_safely behavior
    { st with
      test_file_path := file_path
      execution_result :=
        { success := result.success.getD false
          steps := result.steps.getD []
          total_time_ms := result.total_time_ms.getD elapsed
          console_logs := result.console_logs.getD []
          error_message := result.error_message } }

/-! ## Reporter (`src/ai_web_tester/agent/nodes/reporter.py`) -/

/-- The summary dict of `calculate_summary`. -/
structure Summary where
  total : Nat
  passed : Nat
  failed : Nat
deriving DecidableEq, Repr

/-- `calculate_summary`: `passed` counts steps with `status == "pass"`,
`failed` is the remainder. -/
def calculate_summary (steps : List StepResult) : Summary :=
  let total := steps.length
  let passed := steps.countP (fun s => s.status == "pass")
  { total := total, passed := passed, failed := total - passed }

/-- `get_failure_reason`: first failing step with a truthy error, else the
overall error message when truthy, else `None`. -/
def get_failure_reason (steps : List StepResult) (error_message : Option String) :
    Option String :=
  match steps.find? (fun s => s.status == "fail" && pyTruthyOpt s.error) with
  | some s =>
    some ("Step " ++ toString s.step_number ++ " (" ++ s.action ++ "): " ++
      pyDisplay s.error)
  | none => if pyTruthyOpt error_message then error_message else none

/-- `collect_screenshots`: the truthy `screenshot` fields, in order. -/
def collect_screenshots (steps : List StepResult) : List String :=
  steps.filterMap (fun s =>
    match s.screenshot with
    | some p => if p ≠ "" then some p else none
    | none => none)

/-- The per-step lines of the human-readable report. -/
def reportStepLines (s : StepResult) : List String :=
  let emoji := if s.status == "pass" then "✅" else "❌"
  let selector := s.selector.getD ""
  let selector_str := if selector ≠ "" then " [" ++ selector ++ "]" else ""
  ["  " ++ emoji ++ " Step " ++ toString s.step_number ++ ": " ++ s.action ++ selector_str,
   "     Time: " ++ toString s.time_ms ++ "ms"] ++
  (if pyTruthyOpt s.error then ["     Error: " ++ pyDisplay s.error] else []) ++
  [""]

/-- `generate_human_readable_report`: the formatted text report; the
`datetime.now().strftime(...)` value is the `now` argument. -/
def generate_human_readable_report (instruction base_url status : String)
    (summary : Summary) (steps : List StepResult) (failure_reason : Option String)
    (execution_time_ms : Nat) (now : String) : String :=
  let eq60 := String.mk (List.replicate 60 '=')
  let dash40 := String.mk (List.replicate 40 '-')
  String.intercalate "\n"
    ([eq60,
      "  AI WEB TESTING AGENT - TEST REPORT",
      eq60,
      "",
      "📋 Instruction: " ++ instruction,
      "🌐 Target URL: " ++ base_url,
      "🕐 Timestamp: " ++ now,
      "",
      (if status == "PASSED" then "✅" else "❌") ++ " STATUS: " ++ status,
      "",
      dash40,
      "📊 SUMMARY",
      dash40,
      "  Total Steps:  " ++ toString summary.total,
      "  Passed:       " ++ toString summary.passed,
      "  Failed:       " ++ toString summary.failed,
      "  Duration:     " ++ toString execution_time_ms ++ "ms",
      "",
      dash40,
      "📝 STEP DETAILS",
      dash40] ++
     (steps.map reportStepLines).flatten ++
     (if pyTruthyOpt failure_reason then
        [dash40, "⚠️ FAILURE DETAILS", dash40, "  " ++ pyDisplay failure_reason, ""]
      else []) ++
     [eq60])

/-- `generate_report`: builds the summary, the PASSED/FAILED status, the
failure reason, the screenshot list and the report record. -/
def generate_report (now : String) (st : AgentState) : AgentState :=
  let execution_result := st.execution_result
  let steps := execution_result.steps
  let summary := calculate_summary steps
  let status :=
    if execution_result.success && summary.failed == 0 then "PASSED" else "FAILED"
  let failure_reason := get_failure_reason steps execution_result.error_message
  let screenshots := collect_screenshots steps
  let human_readable :=
    generate_human_readable_report st.instruction st.base_url status summary steps
      failure_reason execution_result.total_time_ms now
  { st with report :=
      { status := status
        total_steps := summary.total
        passed := summary.passed
        failed := summary.failed
        execution_time_ms := execution_result.total_time_ms
        steps := steps
        failure_reason := failure_reason
        screenshots := screenshots
        human_readable := human_readable } }

/-! ## Instruction parser (`src/ai_web_tester/agent/nodes/instruction_parser.py`)

The LLM call is external: the oracle delivers either the parsed action dicts
or the exception message of a failed chain invocation. -/

/-- A raw action dict as returned by the LLM chain (every key optional). -/
structure RawAction where
  action : Option String
  target : Option String
  selector : Option String
  value : Option String
deriving DecidableEq, Repr

/-- Python `a or b` on two optional strings: `a` when truthy, else `b`. -/
def pyOrOpt (a b : Option String) : Option String :=
  if pyTruthyOpt a then a else b

/-- `normalize_actions`: normalize raw dicts into `TestAction`s; `target` is
`(get("target") or get("value"))` for `goto` actions and `None` otherwise. -/
def normalize_actions (actions : List RawAction) : List TestAction :=
  actions.map (fun a =>
    { action := a.action.getD ""
      target := if a.action = some "goto" then pyOrOpt a.target a.value else none
      selector := a.selector
      value := a.value })

/-- `parse_instruction`: on success normalize the LLM output into
`parsed_actions`; on a raised exception append
`f"Failed to parse instruction: {e}"` to `errors` and leave `parsed_actions`
empty. -/
def parse_instruction (translate : Except String (List RawAction))
    (st : AgentState) : AgentState :=
  match translate with
  | .ok result => { st with parsed_actions := normalize_actions result }
  | .error e =>
    { st with errors := st.errors ++ ["Failed to parse instruction: " ++ e],
              parsed_actions := [] }

/-! ## Orchestrator (`src/ai_web_tester/agent/graph.py`)

The LangGraph workflow is embedded as an enumerated node type plus a step
function: executing one node transforms the state and the conditional-edge
functions pick the next node.  All external effects are gathered in an
`Oracles` record. -/

/-- `route_after_validation`: `execute_test` iff validation passed. -/
def route_after_validation (st : AgentState) : String :=
  if is_valid st then "execute_test" else "handle_error"

/-- `route_after_error_handler`: retry (`generate_code`) iff `should_retry`. -/
def route_after_error_handler (st : AgentState) : String :=
  if should_retry st then "generate_code" else "generate_report"

/-- `route_after_execution`: report on success, otherwise `handle_error` when
a retry is still possible, else report directly. -/
def route_after_execution (st : AgentState) : String :=
  if st.execution_result.success then "generate_report"
  else if should_retry st then "handle_error"
  else "generate_report"

/-- The graph nodes (plus the `END` terminal). -/
inductive Node
  | parse_instruction
  | generate_code
  | validate_code
  | execute_test
  | generate_report
  | handle_error
  | terminal
deriving DecidableEq, Repr

/-- All external effects of one run: the LLM translation, the `ast.parse`
syntax check, the sandboxed execution of the emitted script, the wall-clock
readings interpolated into script and report, and the saved-test file path. -/
structure Oracles where
  translate : Except String (List RawAction)
  syntaxCk : String → Bool × String × Nat
  execBehavior : String → ExecBehavior
  execElapsed : Nat
  genNow : String
  reportNow : String
  testFilePath : String

/-- One LangGraph step: run the current node on the state, then follow the
(conditional) edge to the next node, exactly as wired in
`create_agent_graph`. -/
def stepGraph (o : Oracles) : Node × AgentState → Node × AgentState
  | (.parse_instruction, st) => (.generate_code, parse_instruction o.translate st)
  | (.generate_code, st) => (.validate_code, generate_code o.genNow st)
  | (.validate_code, st) =>
    let st := validate_code o.syntaxCk st
    (if route_after_validation st = "execute_test" then .execute_test else .handle_error,
     st)
  | (.execute_test, st) =>
    let st := execute_test (o.execBehavior st.generated_code) o.execElapsed
      o.testFilePath st
    (if route_after_execution st = "generate_report" then .generate_report
     else .handle_error, st)
  | (.handle_error, st) =>
    let st := handle_error st
    (if route_after_error_handler st = "generate_code" then .generate_code
     else .generate_report, st)
  | (.generate_report, st) => (.terminal, generate_report o.reportNow st)
  | (.terminal, st) => (.terminal, st)

/-- The configurations a run of `run_agent instruction base_url` can reach:
the entry point on the initial state, closed under graph steps. -/
inductive Reachable (o : Oracles) (instruction base_url : String) :
    Node × AgentState → Prop
  | init : Reachable o instruction base_url
      (.parse_instruction, create_initial_state instruction base_url)
  | next {c : Node × AgentState} : Reachable o instruction base_url c →
      Reachable o instruction base_url (stepGraph o c)

/-! ## Concrete fixtures used in counterexamples and witnesses -/

/-- A syntax-check oracle modelling `ast.parse` succeeding. -/
def okSyntax : String → Bool × String × Nat := fun _ => (true, "", 0)

/-- Oracles for a run whose translator raises with message `e`; the other
oracle fields are fixed values (none of them is consulted before such a run
terminates). -/
def failingTranslatorOracles (e : String) : Oracles :=
  { translate := .error e
    syntaxCk := okSyntax
    execBehavior := fun _ => .noRunTest
    execElapsed := 0
    genNow := "2024-01-01T00:00:00"
    reportNow := "2024-01-01 00:00:00"
    testFilePath := "playwright_tests/generated_test_0.py" }

/-- A state about to enter `handle_error` with budget remaining whose failure
message (`"No code to validate"`) contains no extractable selector. -/
def noRepairState : AgentState :=
  { create_initial_state "go" "http://x" with
    validation_result :=
      { is_valid := false, error_message := some "No code to validate",
        error_line := some 0 } }

/-- A state about to enter `handle_error` whose failure message names the
selector `#login-btn`, used by two of its three actions. -/
def repairState : AgentState :=
  { create_initial_state "go" "http://x" with
    parsed_actions :=
      [{ action := "fill", target := none, selector := some "#login-btn",
         value := some "user1" },
       { action := "click", target := none, selector := some "#login-btn",
         value := none },
       { action := "click", target := none, selector := some "#other",
         value := none }]
    validation_result :=
      { is_valid := false,
        error_message := some "Selector \x22#login-btn\x22 not found",
        error_line := some 0 } }

/-- A concrete well-formed script: it mentions `playwright` and
`sync_playwright`, defines `run_test`, has `launch(` and `close()`, and every
interaction selector is non-empty and quote-free. -/
def goodScript : String :=
  String.intercalate "\n"
    ["import time",
     "from playwright.sync_api import sync_playwright, expect",
     "",
     "def run_test():",
     "    with sync_playwright() as p:",
     "        browser = p.chromium.launch(headless=True)",
     "        page = browser.new_page()",
     "        page.click(\x22#login-btn\x22)",
     "        browser.close()",
     ""]

/-- A state carrying `goodScript` as its generated code. -/
def goodScriptState : AgentState :=
  { create_initial_state "go" "http://x" with generated_code := goodScript }

/-- A one-action list used to exercise the emitter. -/
def sampleActions : List TestAction :=
  [{ action := "goto", target := some "/login", selector := none, value := none }]

/-- A state whose execution succeeded but contains a step whose status is
neither `"pass"` nor `"fail"`. -/
def skippedStepState : AgentState :=
  { create_initial_state "go" "http://x" with
    execution_result :=
      { success := true
        steps := [{ step_number := 1, action := "click", selector := none,
                    status := "skipped", error := none, time_ms := 0,
                    screenshot := none }]
        total_time_ms := 5
        console_logs := []
        error_message := none } }

/-! ## Helper lemmas -/

/-- `handle_error` changes the retry counter exactly as the budget check
dictates: `+1` below the budget, unchanged at or above it. -/
theorem handle_error_retry_count (st : AgentState) :
    (handle_error st).retry_count =
      if st.retry_count < st.max_retries then st.retry_count + 1
      else st.retry_count := by
  simp only [handle_error]
  split
  · rename_i hge
    simp [Nat.not_lt.mpr hge]
  · rename_i hge
    have hlt : st.retry_count < st.max_retries := Nat.not_le.mp hge
    simp only [if_pos hlt]
    repeat' split
    all_goals rfl

/-- `handle_error` never changes the retry budget. -/
theorem handle_error_max_retries (st : AgentState) :
    (handle_error st).max_retries = st.max_retries := by
  simp only [handle_error]
  repeat' split
  all_goals rfl

/-- `handle_error` never changes the execution result. -/
theorem handle_error_execution_result (st : AgentState) :
    (handle_error st).execution_result = st.execution_result := by
  simp only [handle_error]
  repeat' split
  all_goals rfl

/-- `parse_instruction` touches neither counter. -/
theorem parse_instruction_counters (t : Except String (List RawAction))
    (st : AgentState) :
    (parse_instruction t st).retry_count = st.retry_count ∧
    (parse_instruction t st).max_retries = st.max_retries := by
  cases t <;> simp [parse_instruction]

/-- `generate_code` touches neither counter. -/
theorem generate_code_counters (now : String) (st : AgentState) :
    (generate_code now st).retry_count = st.retry_count ∧
    (generate_code now st).max_retries = st.max_retries := by
  by_cases h : st.parsed_actions = [] <;> simp [generate_code, h]

/-- `validate_code` touches neither counter. -/
theorem validate_code_counters (ck : String → Bool × String × Nat)
    (st : AgentState) :
    (validate_code ck st).retry_count = st.retry_count ∧
    (validate_code ck st).max_retries = st.max_retries := by
  constructor
  · simp only [validate_code]
    repeat' split
    all_goals rfl
  · simp only [validate_code]
    repeat' split
    all_goals rfl

/-- `execute_test` touches neither counter. -/
theorem execute_test_counters (b : ExecBehavior) (e : Nat) (fp : String)
    (st : AgentState) :
    (execute_test b e fp st).retry_count = st.retry_count ∧
    (execute_test b e fp st).max_retries = st.max_retries := by
  constructor
  · simp only [execute_test]
    repeat' split
    all_goals rfl
  · simp only [execute_test]
    repeat' split
    all_goals rfl

/-- `generate_report` touches neither counter. -/
theorem generate_report_counters (now : String) (st : AgentState) :
    (generate_report now st).retry_count = st.retry_count ∧
    (generate_report now st).max_retries = st.max_retries := by
  simp [generate_report]

/-- The bounded-counter invariant is preserved along every graph step and
hence holds in every reachable configuration. -/
theorem reachable_retry_le (o : Oracles) (instruction base_url : String)
    (c : Node × AgentState) (h : Reachable o instruction base_url c) :
    c.2.retry_count ≤ c.2.max_retries := by
  induction h with
  | init => simp [create_initial_state]
  | next hc ih =>
    rename_i c
    obtain ⟨n, st⟩ := c
    cases n with
    | parse_instruction =>
      simpa [stepGraph, (parse_instruction_counters o.translate st).1,
        (parse_instruction_counters o.translate st).2] using ih
    | generate_code =>
      simpa [stepGraph, (generate_code_counters o.genNow st).1,
        (generate_code_counters o.genNow st).2] using ih
    | validate_code =>
      simpa [stepGraph, (validate_code_counters o.syntaxCk st).1,
        (validate_code_counters o.syntaxCk st).2] using ih
    | execute_test =>
      have hc := execute_test_counters (o.execBehavior st.generated_code)
        o.execElapsed o.testFilePath st
      simpa [stepGraph, hc.1, hc.2] using ih
    | handle_error =>
      have hr := handle_error_retry_count st
      have hm := handle_error_max_retries st
      simp only [stepGraph]
      by_cases hlt : st.retry_count < st.max_retries
      · simp only [hr, hm, if_pos hlt]
        exact Nat.succ_le_of_lt (hlt.trans_le (le_refl _))
      · simp only [hr, hm, if_neg hlt]
        exact ih
    | generate_report =>
      simpa [stepGraph, (generate_report_counters o.reportNow st).1,
        (generate_report_counters o.reportNow st).2] using ih
    | terminal => simpa [stepGraph] using ih

/-- Membership in the deduplicated list implies membership in the input. -/
theorem mem_dedupKeepFirst {x : String} : ∀ (seen l : List String),
    x ∈ dedupKeepFirst seen l → x ∈ l := by
  intro seen l
  induction l generalizing seen with
  | nil => simp [dedupKeepFirst]
  | cons y ys ih =>
    simp only [dedupKeepFirst]
    split
    · intro h
      exact List.mem_cons_of_mem _ (ih _ h)
    · intro h
      rcases List.mem_cons.mp h with h1 | h2
      · exact h1 ▸ List.mem_cons_self _ _
      · exact List.mem_cons_of_mem _ (ih _ h2)

/-- Characterization of `should_retry`: budget remains and the failure
condition persists. -/
theorem should_retry_iff (st : AgentState) :
    should_retry st = true ↔
      (st.retry_count < st.max_retries ∧
       (st.validation_result.is_valid = false ∨
        st.execution_result.success = false)) := by
  simp only [should_retry]
  by_cases h1 : st.retry_count ≥ st.max_retries
  · simp [h1, Nat.not_lt.mpr h1]
  · have h1' : st.retry_count < st.max_retries := Nat.not_le.mp h1
    simp only [ge_iff_le, if_neg h1]
    by_cases hv : st.validation_result.is_valid
    · by_cases hx : st.execution_result.success
      · simp [hv, hx]
      · simp [hv, hx, h1']
    · simp [hv, h1']

/-! ## Claims -/

/-- C1 counterexample: on `noRepairState` (attempt `0 < 3`) the repair attempt
finds nothing to fix — actions, generated code and validation result are all
unchanged by `handle_error` — yet the router sends control to
`generate_code`, not `generate_report` as the claim requires. -/
theorem router_retries_without_mutation_cex :
    noRepairState.retry_count < noRepairState.max_retries ∧
    (handle_error noRepairState).parsed_actions = noRepairState.parsed_actions ∧
    (handle_error noRepairState).generated_code = noRepairState.generated_code ∧
    (handle_error noRepairState).validation_result = noRepairState.validation_result ∧
    route_after_error_handler (handle_error noRepairState) = "generate_code" := by
  decide

/-- C1 (amended): after `handle_error` runs on a state with
`attempt < maxAttempts`, the router sends control to `GenerateCode` iff the
incremented counter is still below the budget and the failure condition
persists (validation invalid or execution unsuccessful); whether the Recovery
Engine mutated the state is not consulted, so a repair attempt that found
nothing to fix still retries with identical input while budget remains. -/
theorem route_after_error_handler_spec (st : AgentState)
    (h : st.retry_count < st.max_retries) :
    route_after_error_handler (handle_error st) = "generate_code" ↔
      (st.retry_count + 1 < st.max_retries ∧
       ((handle_error st).validation_result.is_valid = false ∨
        (handle_error st).execution_result.success = false)) := by
  have hr := handle_error_retry_count st
  rw [if_pos h] at hr
  have hm := handle_error_max_retries st
  simp only [route_after_error_handler]
  split
  · rename_i hsr
    have hsr2 := (should_retry_iff (handle_error st)).mp hsr
    rw [hr, hm] at hsr2
    exact iff_of_true rfl hsr2
  · rename_i hsr
    have hsr2 : ¬ ((handle_error st).retry_count < (handle_error st).max_retries ∧
        ((handle_error st).validation_result.is_valid = false ∨
         (handle_error st).execution_result.success = false)) := by
      intro hcontr
      exact hsr ((should_retry_iff (handle_error st)).mpr hcontr)
    rw [hr, hm] at hsr2
    exact iff_of_false (by decide) hsr2

/-- Witness for C1: the amended equivalence applied to the concrete
`noRepairState`, with its budget hypothesis discharged by computation. -/
theorem route_after_error_handler_spec_witness :
    noRepairState.retry_count < noRepairState.max_retries ∧
    (route_after_error_handler (handle_error noRepairState) = "generate_code" ↔
      (noRepairState.retry_count + 1 < noRepairState.max_retries ∧
       ((handle_error noRepairState).validation_result.is_valid = false ∨
        (handle_error noRepairState).execution_result.success = false))) :=
  ⟨by decide, route_after_error_handler_spec noRepairState (by decide)⟩

/-- C2: in every reachable configuration of a run,
`0 ≤ retry_count ≤ max_retries`; the counter is changed only by
`handle_error` — incremented by exactly one when below the budget and left
unchanged when the budget is reached, hence monotone — and every other node
preserves it. -/
theorem retry_counter_bounded_and_monotone :
    (∀ (o : Oracles) (instruction base_url : String) (c : Node × AgentState),
        Reachable o instruction base_url c →
        0 ≤ c.2.retry_count ∧ c.2.retry_count ≤ c.2.max_retries) ∧
    (∀ st : AgentState, st.retry_count < st.max_retries →
        (handle_error st).retry_count = st.retry_count + 1) ∧
    (∀ st : AgentState, st.max_retries ≤ st.retry_count →
        (handle_error st).retry_count = st.retry_count) ∧
    (∀ st : AgentState, st.retry_count ≤ (handle_error st).retry_count) ∧
    (∀ (t : Except String (List RawAction)) (st : AgentState),
        (parse_instruction t st).retry_count = st.retry_count) ∧
    (∀ (now : String) (st : AgentState),
        (generate_code now st).retry_count = st.retry_count) ∧
    (∀ (ck : String → Bool × String × Nat) (st : AgentState),
        (validate_code ck st).retry_count = st.retry_count) ∧
    (∀ (b : ExecBehavior) (e : Nat) (fp : String) (st : AgentState),
        (execute_test b e fp st).retry_count = st.retry_count) ∧
    (∀ (now : String) (st : AgentState),
        (generate_report now st).retry_count = st.retry_count) := by
  refine ⟨?_, ?_, ?_, ?_, ?_, ?_, ?_, ?_, ?_⟩
  · intro o i u c h
    exact ⟨Nat.zero_le _, reachable_retry_le o i u c h⟩
  · intro st h
    rw [handle_error_retry_count, if_pos h]
  · intro st h
    rw [handle_error_retry_count, if_neg (Nat.not_lt.mpr h)]
  · intro st
    rw [handle_error_retry_count]
    split
    · exact Nat.le_succ _
    · exact le_refl _
  · intro t st
    exact (parse_instruction_counters t st).1
  · intro now st
    exact (generate_code_counters now st).1
  · intro ck st
    exact (validate_code_counters ck st).1
  · intro b e fp st
    exact (execute_test_counters b e fp st).1
  · intro now st
    exact (generate_report_counters now st).1

/-- Witness for C2 at a concrete run (the initial configuration) and concrete
states on either side of the budget. -/
theorem retry_counter_bounded_and_monotone_witness :
    (0 ≤ (create_initial_state "go" "http://x").retry_count ∧
     (create_initial_state "go" "http://x").retry_count ≤
       (create_initial_state "go" "http://x").max_retries) ∧
    (create_initial_state "go" "http://x").retry_count <
      (create_initial_state "go" "http://x").max_retries ∧
    (handle_error (create_initial_state "go" "http://x")).retry_count =
      (create_initial_state "go" "http://x").retry_count + 1 :=
  ⟨retry_counter_bounded_and_monotone.1 (failingTranslatorOracles "boom") "go"
      "http://x" _ Reachable.init,
   by decide,
   retry_counter_bounded_and_monotone.2.1 (create_initial_state "go" "http://x")
      (by decide)⟩

/-- C3 (code bug): the selector-hygiene check rejects every script, not only
those with empty or quote-breaking selectors: the second operand of its `or`
is the constant non-empty string `'page.fill("",'` (a truthy value, not a
containment test), so `check_selectors` always fails and `goodScriptState` —
whose script passes the syntax, capability-marker and structural checks and
contains neither an empty nor a quote-breaking selector — is still rejected
with the empty-selector message. -/
theorem check_selectors_rejects_everything :
    (∀ code : String, check_selectors code = (false, "Empty selector detected")) ∧
    containsS "page.click(\x22\x22)" goodScript = false ∧
    containsS "page.fill(\x22\x22," goodScript = false ∧
    (validate_code okSyntax goodScriptState).validation_result.is_valid = false ∧
    (validate_code okSyntax goodScriptState).validation_result.error_message =
      some "Selectors check failed: Empty selector detected" := by
  refine ⟨?_, by decide, by decide, by decide, by decide⟩
  intro code
  have htruthy : pyTruthy "page.fill(\x22\x22," = true := by decide
  simp [check_selectors, htruthy]

/-- C4 counterexample: for the selector `[type='submit']` the suggestion list
contains the input selector itself — the generic submit alternatives are
appended after the removal step. -/
theorem suggest_alternatives_contains_input_cex :
    "[type=\x27submit\x27]" ∈
      suggest_alternative_selectors "[type=\x27submit\x27]" := by
  decide

/-- C4 (amended): the suggestion list always has length at most 5; and the
input selector never appears in the output provided its lowercasing contains
none of the substrings "button", "submit", "input" (the triggers of the
generic alternatives that are appended after the input is removed). -/
theorem suggest_alternatives_spec :
    (∀ s : String, (suggest_alternative_selectors s).length ≤ 5) ∧
    (∀ s : String,
      containsS "button" (toLowerS s) = false →
      containsS "submit" (toLowerS s) = false →
      containsS "input" (toLowerS s) = false →
      s ∉ suggest_alternative_selectors s) := by
  constructor
  · intro s
    simp only [suggest_alternative_selectors]
    rw [List.length_take]
    exact min_le_left _ _
  · intro s hb hs hi hmem
    simp only [suggest_alternative_selectors, hb, hs, hi, Bool.or_self,
      Bool.false_or, if_false] at hmem
    have h1 := List.take_subset 5 _ hmem
    have h2 := mem_dedupKeepFirst _ _ h1
    have h3 := List.mem_filter.mp h2
    simp at h3

/-- Witness for C4: the amended statement applied to the concrete selector
`#login-btn`, whose lowercasing avoids all three trigger substrings. -/
theorem suggest_alternatives_spec_witness :
    containsS "button" (toLowerS "#login-btn") = false ∧
    containsS "submit" (toLowerS "#login-btn") = false ∧
    containsS "input" (toLowerS "#login-btn") = false ∧
    (suggest_alternative_selectors "#login-btn").length ≤ 5 ∧
    "#login-btn" ∉ suggest_alternative_selectors "#login-btn" :=
  ⟨by decide, by decide, by decide,
   suggest_alternatives_spec.1 "#login-btn",
   suggest_alternatives_spec.2 "#login-btn" (by decide) (by decide) (by decide)⟩

/-- C5: when `handle_error` runs below budget and the classified failure
message yields a selector whose alternative list is non-empty and which
matches at least one action, every action whose selector equals the failing
one is rewritten to the same first alternative, `generated_code` is cleared
to the empty string and `validation_result.is_valid` is forced to `false`. -/
theorem handle_error_rewrites_all_occurrences (st : AgentState)
    (m sel alt : String) (rest : List String)
    (hlt : st.retry_count < st.max_retries)
    (hm : analyzeErrorMessage st = some m)
    (hx : extract_failed_selector m = some sel)
    (ha : suggest_alternative_selectors sel = alt :: rest)
    (hmatch : st.parsed_actions.any (fun a => a.selector = some sel) = true) :
    (handle_error st).parsed_actions =
      st.parsed_actions.map (fun a =>
        if a.selector = some sel then { a with selector := some alt } else a) ∧
    (handle_error st).generated_code = "" ∧
    (handle_error st).validation_result.is_valid = false := by
  have hge : ¬ st.retry_count ≥ st.max_retries := Nat.not_le.mpr hlt
  simp only [handle_error, ge_iff_le, if_neg hge, hm, hx, ha,
    modify_actions_with_alternatives, hmatch, if_true]
  simp

/-- Witness for C5: the theorem applied to `repairState`, whose failure
message names `#login-btn`, used by two of its three actions. -/
theorem handle_error_rewrites_all_occurrences_witness :
    repairState.retry_count < repairState.max_retries ∧
    analyzeErrorMessage repairState =
      some "Selector \x22#login-btn\x22 not found" ∧
    extract_failed_selector "Selector \x22#login-btn\x22 not found" =
      some "#login-btn" ∧
    suggest_alternative_selectors "#login-btn" =
      "button:has-text(\x27Login\x27)" ::
        ["button:has-text(\x27Sign In\x27)", "button:has-text(\x27Log In\x27)",
         "input[type=\x27submit\x27]", "button[type=\x27submit\x27]"] ∧
    repairState.parsed_actions.any
      (fun a => a.selector = some "#login-btn") = true ∧
    ((handle_error repairState).parsed_actions =
       repairState.parsed_actions.map (fun a =>
         if a.selector = some "#login-btn" then
           { a with selector := some "button:has-text(\x27Login\x27)" }
         else a) ∧
     (handle_error repairState).generated_code = "" ∧
     (handle_error repairState).validation_result.is_valid = false) :=
  ⟨by decide, by decide, by decide, by decide, by decide,
   handle_error_rewrites_all_occurrences repairState
     "Selector \x22#login-btn\x22 not found" "#login-btn"
     "button:has-text(\x27Login\x27)"
     ["button:has-text(\x27Sign In\x27)", "button:has-text(\x27Log In\x27)",
      "input[type=\x27submit\x27]", "button[type=\x27submit\x27]"]
     (by decide) (by decide) (by decide) (by decide) (by decide)⟩

/-- C6 counterexample: with a failing translator the run does not
short-circuit to report generation — three steps after the entry point it is
executing `handle_error`, inside the repair/retry loop, and one step later
the retry counter has been incremented. -/
theorem translation_failure_enters_retry_loop_cex :
    ((stepGraph (failingTranslatorOracles "boom"))^[3]
        (Node.parse_instruction, create_initial_state "go" "http://x")).1 =
      Node.handle_error ∧
    ((stepGraph (failingTranslatorOracles "boom"))^[4]
        (Node.parse_instruction, create_initial_state "go" "http://x")).2.retry_count
      = 1 := by
  exact ⟨rfl, rfl⟩

/-- C6 (amended): a translation failure is recorded in `errors` and the
action list is left empty, but the run is not short-circuited: the empty
script fails validation, the run loops through `handle_error` until the
retry budget is exhausted (`retry_count` reaching `max_retries = 3`), and
only then produces a zero-step FAILED report. -/
theorem translation_failure_run (e instruction base_url : String) :
    (parse_instruction (Except.error e)
        (create_initial_state instruction base_url)).errors =
      ["Failed to parse instruction: " ++ e] ∧
    (parse_instruction (Except.error e)
        (create_initial_state instruction base_url)).parsed_actions = [] ∧
    ((stepGraph (failingTranslatorOracles e))^[11]
        (Node.parse_instruction, create_initial_state instruction base_url)).1 =
      Node.terminal ∧
    ((stepGraph (failingTranslatorOracles e))^[11]
        (Node.parse_instruction, create_initial_state instruction base_url)).2.retry_count
      = 3 ∧
    ((stepGraph (failingTranslatorOracles e))^[11]
        (Node.parse_instruction, create_initial_state instruction base_url)).2.report.status
      = "FAILED" ∧
    ((stepGraph (failingTranslatorOracles e))^[11]
        (Node.parse_instruction, create_initial_state instruction base_url)).2.report.total_steps
      = 0 := by
  exact ⟨rfl, rfl, rfl, rfl, rfl, rfl⟩

/-- C7 counterexample: identical actions, base URL and instruction but two
different clock readings yield different script text — `generate_code` is not
deterministic in the three stated inputs. -/
theorem emit_differs_across_calls_cex :
    emit sampleActions "http://x" "go" "2024-01-01T00:00:00" ≠
      emit sampleActions "http://x" "go" "2024-01-02T00:00:00" := by
  decide

/-- C7 (amended): the emitted script is
`prefix ++ timestamp ++ suffix(actions, baseUrl, instruction)` — the
`datetime.now()` timestamp is the only part not determined by the three
stated inputs, and two calls with identical actions, base URL, instruction
AND timestamp yield byte-identical text. -/
theorem emit_deterministic_modulo_timestamp (actions : List TestAction)
    (base_url instruction ts1 ts2 : String) :
    emit actions base_url instruction ts1 =
      scriptPart1 ++ ts1 ++ scriptPart2 ++
        pyReplace instruction '\x22' "\\\x22" ++ scriptPart3 ++ "False" ++
        scriptPart4 ++ String.intercalate "\n" (stepCodes base_url 1 actions) ++
        scriptPart5 ∧
    (ts1 = ts2 →
      emit actions base_url instruction ts1 =
        emit actions base_url instruction ts2) := by
  constructor
  · rfl
  · intro h
    rw [h]

/-- Witness for C7: the equal-timestamp determinism instance at concrete
inputs. -/
theorem emit_deterministic_modulo_timestamp_witness :
    emit sampleActions "http://x" "go" "2024-01-01T00:00:00" =
      emit sampleActions "http://x" "go" "2024-01-01T00:00:00" :=
  (emit_deterministic_modulo_timestamp sampleActions "http://x" "go"
    "2024-01-01T00:00:00" "2024-01-01T00:00:00").2 rfl

/-- C8: the executor never propagates a fault to its caller: `execute_test`
is a total function, and when the underlying `exec`/`run_test()` raises an
internal fault (a caught `Exception`) or the namespace lacks `run_test`, the
resulting state carries `success = false` with `error_message` set — as do
the no-code and invalid-code guard branches. -/
theorem executor_captures_faults (st : AgentState) (ename estr etb fp : String)
    (el : Nat) :
    ((execute_test (.raises ename estr etb) el fp st).execution_result.success
        = false ∧
     (execute_test (.raises ename estr etb) el fp
        st).execution_result.error_message.isSome = true) ∧
    ((execute_test .noRunTest el fp st).execution_result.success = false ∧
     (execute_test .noRunTest el fp
        st).execution_result.error_message.isSome = true) := by
  refine ⟨⟨?_, ?_⟩, ?_, ?_⟩ <;>
    (simp only [execute_test, execute_code_safely]
     split
     · rfl
     · split <;> rfl)

/-- C9 counterexample: a run that succeeded and has no step with status
`"fail"` (its single step is `"skipped"`) is still reported FAILED — the
status is not decided by counting `"fail"` steps. -/
theorem report_failed_without_fail_status_cex :
    skippedStepState.execution_result.success = true ∧
    skippedStepState.execution_result.steps.countP
      (fun s => s.status == "fail") = 0 ∧
    (generate_report "2024-01-01 00:00:00" skippedStepState).report.status =
      "FAILED" := by
  exact ⟨rfl, rfl, rfl⟩

/-- C9 (amended): the report status is `"PASSED"` iff the execution succeeded
and every step has status `"pass"` — a step with any other status, not only
`"fail"`, forfeits the PASSED verdict; in every other case it is `"FAILED"`. -/
theorem report_status_iff (now : String) (st : AgentState) :
    ((generate_report now st).report.status = "PASSED" ↔
      (st.execution_result.success = true ∧
       ∀ s ∈ st.execution_result.steps, s.status = "pass")) ∧
    ((generate_report now st).report.status = "PASSED" ∨
     (generate_report now st).report.status = "FAILED") := by
  have key : (st.execution_result.steps.length -
      st.execution_result.steps.countP (fun s => s.status == "pass") = 0) ↔
      ∀ s ∈ st.execution_result.steps, s.status = "pass" := by
    rw [Nat.sub_eq_zero_iff_le]
    constructor
    · intro hle s hs
      have hcnt := List.countP_le_length
        (fun s : StepResult => s.status == "pass")
        (l := st.execution_result.steps)
      have heq := Nat.le_antisymm hcnt hle
      have hall := List.countP_eq_length.mp heq
      simpa using hall s hs
    · intro hall
      have heq : st.execution_result.steps.countP
          (fun s => s.status == "pass") = st.execution_result.steps.length :=
        List.countP_eq_length.mpr (fun a ha => by simpa using hall a ha)
      exact le_of_eq heq.symm
  have hstatus : (generate_report now st).report.status =
      if st.execution_result.success &&
         (st.execution_result.steps.length -
          st.execution_result.steps.countP (fun s => s.status == "pass") == 0)
      then "PASSED" else "FAILED" := rfl
  rw [hstatus]
  constructor
  · constructor
    · intro hp
      by_cases hs : st.execution_result.success
      · by_cases hz : st.execution_result.steps.length -
            st.execution_result.steps.countP (fun s => s.status == "pass") = 0
        · exact ⟨hs, key.mp hz⟩
        · exfalso
          have hzb : (st.execution_result.steps.length -
              st.execution_result.steps.countP (fun s => s.status == "pass") == 0)
              = false := by simpa using hz
          rw [hs, hzb] at hp
          simp at hp
      · have hs' : st.execution_result.success = false := by simpa using hs
        rw [hs'] at hp
        simp at hp
    · rintro ⟨hs, hall⟩
      have hz := key.mpr hall
      have hzb : (st.execution_result.steps.length -
          st.execution_result.steps.countP (fun s => s.status == "pass") == 0)
          = true := by simpa using hz
      rw [hs, hzb]
      rfl
  · split
    · exact Or.inl rfl
    · exact Or.inr rfl

/-- C10: in every report produced by `generate_report`,
`passed + failed = total_steps`, where `passed` counts exactly the steps
whose status equals `"pass"` and `failed` counts every other step. -/
theorem report_counts (now : String) (st : AgentState) :
    (generate_report now st).report.passed +
        (generate_report now st).report.failed =
      (generate_report now st).report.total_steps ∧
    (generate_report now st).report.passed =
      st.execution_result.steps.countP (fun s => s.status == "pass") ∧
    (generate_report now st).report.failed =
      st.execution_result.steps.countP (fun s => !(s.status == "pass")) := by
  have h1 : (generate_report now st).report.passed =
      st.execution_result.steps.countP (fun s => s.status == "pass") := rfl
  have h2 : (generate_report now st).report.total_steps =
      st.execution_result.steps.length := rfl
  have h3 : (generate_report now st).report.failed =
      st.execution_result.steps.length -
        st.execution_result.steps.countP (fun s => s.status == "pass") := rfl
  refine ⟨?_, h1, ?_⟩
  · rw [h1, h2, h3]
    exact Nat.add_sub_cancel' (List.countP_le_length _)
  · rw [h3]
    have hconv : st.execution_result.steps.countP
        (fun a => decide ¬((a.status == "pass") = true)) =
        st.execution_result.steps.countP (fun s => !(s.status == "pass")) := by
      congr 1
      funext a
      simp [decide_not, beq_eq_decide]
    have hsplit := List.length_eq_countP_add_countP
      (fun s : StepResult => s.status == "pass") st.execution_result.steps
    rw [hconv] at hsplit
    rw [hsplit, Nat.add_sub_cancel_left]

end AiWebTester
